import Mathlib

/-!
Verification development for the bondhu-ai backend.

Shallow embedding of:
* `app/services/privacy_service.py` (`PrivacyService`), over association lists
  standing for Python dicts;
* `app/api/v1/auth.py` (`register_student`, `login`), over a list of user rows
  standing for the `users` table;
* the credit-ledger operations of spec §4.1 (Grant / Consume / GrantDailyBonus).
  Only the ORM table declarations of `app/models/credit.py` are present in the
  source; the operations themselves are modelled from the spec.
-/

namespace Privacy

/-- `PrivacyService.ALWAYS_PRIVATE_FIELDS`: fields never exposed publicly. -/
def ALWAYS_PRIVATE_FIELDS : List String :=
  ["hashed_password", "password_reset_token", "two_factor_secret",
   "verification_token", "api_keys", "internal_notes"]

/-- `PrivacyService.ALWAYS_PUBLIC_FIELDS`: fields always public, even in locked profiles. -/
def ALWAYS_PUBLIC_FIELDS : List String :=
  ["id", "username", "user_type", "created_at"]

/-- `schemas/privacy.py` `DEFAULT_FIELD_VISIBILITY`: per-field defaults used when a
user has no privacy-settings row. -/
def DEFAULT_FIELD_VISIBILITY : List (String × Bool) :=
  [("email", false), ("phone_number", false), ("date_of_birth", false),
   ("address", false), ("nid_number", false), ("student_id", false),
   ("employee_id", false), ("current_gpa", false), ("rank_in_class", false),
   ("parent_user_id", false),
   ("full_name", true), ("username", true), ("bio", true), ("avatar_url", true),
   ("city", true), ("institution", true), ("designation", true),
   ("specializations", true), ("is_verified", true)]

/-- `UserPrivacySettings` (models/user_privacy.py): the fields read by
`PrivacyService.get_visible_fields`.  `field_visibility` is the JSON map
of per-field booleans, embedded as an association list. -/
structure UserPrivacySettings where
  profile_visibility : String
  field_visibility : List (String × Bool)
  default_field_visibility : Bool
deriving Repr, DecidableEq

/-- `User` as read by the privacy service: its id and its (possibly absent)
one-to-one privacy-settings row. -/
structure User where
  id : Nat
  privacy_settings : Option UserPrivacySettings
deriving Repr, DecidableEq

/-- The Python guard `viewer and viewer.id == target_user.id`
(an absent viewer is falsy). -/
def isSelf (viewer : Option User) (target : User) : Bool :=
  match viewer with
  | some v => v.id == target.id
  | none => false

/-- `PrivacyService._apply_default_privacy`: drop always-private fields, keep
always-public fields, otherwise use `DEFAULT_FIELD_VISIBILITY.get(field, True)`. -/
def applyDefaultPrivacy {α : Type} (data : List (String × α)) : List (String × α) :=
  data.filter fun kv =>
    !ALWAYS_PRIVATE_FIELDS.contains kv.1 &&
      (ALWAYS_PUBLIC_FIELDS.contains kv.1 ||
        (DEFAULT_FIELD_VISIBILITY.lookup kv.1).getD true)

/-- `PrivacyService.get_visible_fields`: filter `data` for `viewer` looking at
`target`.  Mirrors the four paths of the Python code: owner view, no settings,
locked profile, and per-field visibility with fallback to the default flag. -/
def get_visible_fields {α : Type} (viewer : Option User) (target : User)
    (data : List (String × α)) : List (String × α) :=
  if isSelf viewer target then
    data.filter fun kv => !ALWAYS_PRIVATE_FIELDS.contains kv.1
  else
    match target.privacy_settings with
    | none => applyDefaultPrivacy data
    | some ps =>
      if ps.profile_visibility == "locked" then
        data.filter fun kv => ALWAYS_PUBLIC_FIELDS.contains kv.1
      else
        data.filter fun kv =>
          !ALWAYS_PRIVATE_FIELDS.contains kv.1 &&
            (ALWAYS_PUBLIC_FIELDS.contains kv.1 ||
              (ps.field_visibility.lookup kv.1).getD ps.default_field_visibility)

end Privacy

namespace AuthApi

/-- A row of the `users` table (models/user.py), with the columns read by
`register_student` and `login`.  Identifiers are nullable strings; ids are
opaque (here `Nat`). -/
structure DbUser where
  id : Nat
  user_type : String
  email : Option String
  phone_number : Option String
  username : Option String
  hashed_password : Option String
  is_active : Bool
  is_verified : Bool
  is_suspended : Bool
  suspension_reason : Option String
  two_factor_enabled : Bool
deriving Repr, DecidableEq

/-- `HTTPException(status_code, detail)`. -/
structure HttpError where
  status_code : Nat
  detail : String
deriving Repr, DecidableEq

/-- The identifier/credential part of `StudentRegister`.  The profile,
student and privacy-settings rows created on success live in other tables
and are not modelled; the claims here concern only the `users` table. -/
structure StudentRegister where
  email : Option String
  phone_number : Option String
  username : Option String
  password : String
deriving Repr, DecidableEq

/-- Python truthiness of an optional string (`None` and `""` are falsy),
as used by `if data.email and ...`. -/
def truthy : Option String → Bool
  | some s => !s.isEmpty
  | none => false

/-- `register_student` (api/v1/auth.py): reject a duplicate email, phone
number or username with HTTP 400, otherwise append the new user row.
`hashPw` abstracts `get_password_hash`; `freshId` the generated id. -/
def register_student (hashPw : String → String) (db : List DbUser)
    (freshId : Nat) (data : StudentRegister) : Except HttpError (List DbUser) :=
  if truthy data.email && (db.find? fun u => u.email == data.email).isSome then
    .error ⟨400, "Email already registered"⟩
  else if truthy data.phone_number &&
      (db.find? fun u => u.phone_number == data.phone_number).isSome then
    .error ⟨400, "Phone number already registered"⟩
  else if truthy data.username &&
      (db.find? fun u => u.username == data.username).isSome then
    .error ⟨400, "Username already taken"⟩
  else
    .ok (db ++ [{ id := freshId, user_type := "student", email := data.email,
                  phone_number := data.phone_number, username := data.username,
                  hashed_password := some (hashPw data.password),
                  is_active := true, is_verified := false, is_suspended := false,
                  suspension_reason := none, two_factor_enabled := false }])

/-- The `users` table after a registration request: unchanged when the
request is rejected (the HTTP exception aborts the transaction). -/
def applyRegister (hashPw : String → String) (db : List DbUser)
    (freshId : Nat) (data : StudentRegister) : List DbUser :=
  match register_student hashPw db freshId data with
  | .ok db2 => db2
  | .error _ => db

/-- `UserLogin` request body. -/
structure UserLogin where
  identifier : String
  password : String
  remember_me : Bool
deriving Repr, DecidableEq

/-- The token bundle of a `LoginResponse`. -/
structure TokensOut where
  access_token : String
  refresh_token : Option String
  expires_in : Nat
deriving Repr, DecidableEq

/-- `LoginResponse`: the user summary is reduced to the id. -/
structure LoginResponse where
  user_id : Nat
  tokens : TokensOut
  requires_2fa : Bool
  temp_token : Option String
deriving Repr, DecidableEq

/-- Python `str.lower`, over the character list. -/
def pyLower (s : String) : String := ⟨s.data.map Char.toLower⟩

/-- Python `str.strip`: drop whitespace from both ends. -/
def pyStrip (s : String) : String :=
  ⟨((s.data.dropWhile Char.isWhitespace).reverse.dropWhile Char.isWhitespace).reverse⟩

/-- Python `c in s` for a single character. -/
def pyContainsChar (s : String) (c : Char) : Bool := s.data.contains c

/-- Python `s.startswith(c)` for a one-character needle. -/
def pyStartsWith (s : String) (c : Char) : Bool :=
  match s.data with
  | d :: _ => d == c
  | [] => false

/-- Python `str.isdigit` restricted to ASCII digits: nonempty and all digits. -/
def pyIsdigit (s : String) : Bool :=
  !s.data.isEmpty && s.data.all Char.isDigit

/-- The identifier dispatch of `login`: strip and lowercase, then look the
user up by email if the identifier contains `@`, by phone if it starts with
`+` or is all digits, else by username. -/
def findUserByIdentifier (db : List DbUser) (raw : String) : Option DbUser :=
  let identifier := pyLower (pyStrip raw)
  if pyContainsChar identifier '@' then
    db.find? fun u => u.email == some identifier
  else if pyStartsWith identifier '+' || pyIsdigit identifier then
    db.find? fun u => u.phone_number == some identifier
  else
    db.find? fun u => u.username == some identifier

/-- `login` (api/v1/auth.py): find the user, verify the password, reject
inactive and suspended accounts with HTTP 403, then either start the 2FA
handshake or issue tokens.  `verify` abstracts `verify_password`,
`makeAccess`/`makeRefresh` the JWT constructors, and `expireMinutes` the
configured access-token lifetime. -/
def login (verify : String → Option String → Bool)
    (makeAccess : Nat → String → String) (makeRefresh : Nat → String)
    (expireMinutes : Nat) (db : List DbUser) (data : UserLogin) :
    Except HttpError LoginResponse :=
  match findUserByIdentifier db data.identifier with
  | none => .error ⟨401, "Invalid credentials"⟩
  | some user =>
    if !verify data.password user.hashed_password then
      .error ⟨401, "Invalid credentials"⟩
    else if !user.is_active then
      .error ⟨403, "User account is inactive"⟩
    else if user.is_suspended then
      .error ⟨403, "Account suspended: " ++ (user.suspension_reason.getD "Contact support")⟩
    else if user.two_factor_enabled then
      .ok { user_id := user.id, tokens := ⟨"", none, 0⟩, requires_2fa := true,
            temp_token := some (makeAccess user.id "2fa_pending") }
    else
      .ok { user_id := user.id,
            tokens := ⟨makeAccess user.id user.user_type,
                       if data.remember_me then some (makeRefresh user.id) else none,
                       expireMinutes * 60⟩,
            requires_2fa := false, temp_token := none }

end AuthApi

namespace CreditSpec

/-- A row of `credit_ledger` (models/credit.py `CreditLedger`), with the
columns the ledger operations touch.  Amounts are exact naturals. -/
structure LedgerEntry where
  amount : Nat
  balance_remaining : Nat
  is_depleted : Bool
  expires_at : Option Nat
  is_expired : Bool
  expired_amount : Nat
deriving Repr, DecidableEq

/-- A user's `credits` row (models/credit.py `Credit`) together with that
user's `credit_ledger` rows.  The list order of `ledger` is immaterial:
operations that need an order sort explicitly, as the SQL queries would. -/
structure CreditState where
  balance : Nat
  free_credits : Nat
  paid_credits : Nat
  total_earned_free : Nat
  total_purchased : Nat
  total_spent : Nat
  spent_today : Nat
  spent_this_month : Nat
  daily_spend_limit : Option Nat
  monthly_spend_limit : Option Nat
  ledger : List LedgerEntry
deriving Repr, DecidableEq

/-- A `credit_usage` row (models/credit.py `CreditUsage`): the amount drawn
from one ledger entry; the entry is identified here by its expiry key. -/
structure UsageRecord where
  amount_used : Nat
  entry_expires_at : Option Nat
deriving Repr, DecidableEq

inductive CreditError
  | invalidAmount
  | insufficientFunds
  | limitExceeded
deriving Repr, DecidableEq

/-- An entry still counts toward the balance: neither depleted nor expired. -/
def eligible (e : LedgerEntry) : Bool := !e.is_depleted && !e.is_expired

/-- `expires_at` ascending with NULL (non-expiring) sorted last. -/
def keyLE : Option Nat → Option Nat → Bool
  | _, none => true
  | none, some _ => false
  | some a, some b => a ≤ b

/-- The consumption order on ledger entries: soonest expiry first. -/
def entryRel (e f : LedgerEntry) : Prop := keyLE e.expires_at f.expires_at = true

instance : DecidableRel entryRel := fun _ _ => instDecidableEqBool _ _

instance : IsTotal LedgerEntry entryRel where
  total a b := by
    have h : ∀ x y : Option Nat, keyLE x y = true ∨ keyLE y x = true := by
      intro x y
      rcases x with _ | x <;> rcases y with _ | y <;> simp [keyLE]
      omega
    exact h a.expires_at b.expires_at

instance : IsTrans LedgerEntry entryRel where
  trans a b c hab hbc := by
    have h : ∀ x y z : Option Nat,
        keyLE x y = true → keyLE y z = true → keyLE x z = true := by
      intro x y z hxy hyz
      rcases x with _ | x <;> rcases y with _ | y <;> rcases z with _ | z <;>
        simp_all [keyLE]
      omega
    exact h a.expires_at b.expires_at c.expires_at hab hbc

/-- Sum of `balance_remaining` over the non-depleted, non-expired entries. -/
def ledgerSum (l : List LedgerEntry) : Nat :=
  ((l.filter eligible).map LedgerEntry.balance_remaining).sum

/-- Total amount drawn by a list of usage records. -/
def usedSum (us : List UsageRecord) : Nat := (us.map UsageRecord.amount_used).sum

/-- Modelled from the spec: `Grant(user, amount, expires_at?)` (§4.1); the
operation itself is absent from the source, which only declares the tables.
Creates a ledger entry with `balance_remaining = amount`, increments the
aggregate balance, the matching sub-balance (`free_credits` when an expiry is
set, else `paid_credits`) and the lifetime counters; fails if `amount <= 0`. -/
def grant (st : CreditState) (amount : Nat) (expires_at : Option Nat) :
    Except CreditError CreditState :=
  if amount = 0 then .error .invalidAmount
  else .ok { st with
    balance := st.balance + amount
    free_credits :=
      if expires_at.isSome then st.free_credits + amount else st.free_credits
    paid_credits :=
      if expires_at.isSome then st.paid_credits else st.paid_credits + amount
    total_earned_free :=
      if expires_at.isSome then st.total_earned_free + amount else st.total_earned_free
    total_purchased :=
      if expires_at.isSome then st.total_purchased else st.total_purchased + amount
    ledger := st.ledger ++
      [{ amount := amount, balance_remaining := amount, is_depleted := false,
         expires_at := expires_at, is_expired := false, expired_amount := 0 }] }

/-- Modelled from the spec: step (3) of `Consume` (§4.1).  Walk the entries in
the given (sorted) order, draw from each eligible one, decrement its
`balance_remaining`, mark `is_depleted` when it reaches zero, and record one
usage entry per ledger entry drawn from, until the amount is satisfied. -/
def drawSeq : Nat → List LedgerEntry → List LedgerEntry × List UsageRecord
  | _, [] => ([], [])
  | amt, e :: es =>
    if amt = 0 then (e :: es, [])
    else if eligible e then
      ({ e with
          balance_remaining := e.balance_remaining - min amt e.balance_remaining,
          is_depleted :=
            decide (e.balance_remaining - min amt e.balance_remaining = 0) } ::
        (drawSeq (amt - min amt e.balance_remaining) es).1,
       { amount_used := min amt e.balance_remaining,
         entry_expires_at := e.expires_at } ::
        (drawSeq (amt - min amt e.balance_remaining) es).2)
    else
      (e :: (drawSeq amt es).1, (drawSeq amt es).2)

/-- Modelled from the spec: the configured daily/monthly spend limits of
step (6) of `Consume` (§4.1) would be exceeded. -/
def limitHit (st : CreditState) (amt : Nat) : Bool :=
  (match st.daily_spend_limit with
   | some l => decide (l < st.spent_today + amt)
   | none => false) ||
  (match st.monthly_spend_limit with
   | some l => decide (l < st.spent_this_month + amt)
   | none => false)

/-- Modelled from the spec: `Consume(user, amount)` (§4.1); the operation is
absent from the source.  (1) verify `balance >= amount` else insufficient
funds; (2) order the eligible entries by `expires_at` ascending, NULLs last;
(3)-(4) draw sequentially, recording usage; (5) decrement the aggregate and
the matching sub-balances; (6) update spend counters, failing if a configured
limit would be exceeded. -/
def consume (st : CreditState) (amt : Nat) :
    Except CreditError (CreditState × List UsageRecord) :=
  if st.balance < amt then .error .insufficientFunds
  else if limitHit st amt then .error .limitExceeded
  else
    .ok ({ st with
      balance := st.balance - amt
      free_credits := st.free_credits -
        usedSum ((drawSeq amt (List.insertionSort entryRel st.ledger)).2.filter
          fun u => u.entry_expires_at.isSome)
      paid_credits := st.paid_credits -
        usedSum ((drawSeq amt (List.insertionSort entryRel st.ledger)).2.filter
          fun u => !u.entry_expires_at.isSome)
      total_spent := st.total_spent + amt
      spent_today := st.spent_today + amt
      spent_this_month := st.spent_this_month + amt
      ledger := (drawSeq amt (List.insertionSort entryRel st.ledger)).1 },
      (drawSeq amt (List.insertionSort entryRel st.ledger)).2)

/-- A Grant or Consume request, for claims about operation sequences. -/
inductive Op
  | grantOp (amount : Nat) (expires_at : Option Nat)
  | consumeOp (amount : Nat)
deriving Repr, DecidableEq

/-- State after a request: a rejected request leaves the state unchanged
(the enclosing transaction is rolled back). -/
def applyOp (st : CreditState) : Op → CreditState
  | .grantOp a e =>
    match grant st a e with
    | .ok st2 => st2
    | .error _ => st
  | .consumeOp a =>
    match consume st a with
    | .ok (st2, _) => st2
    | .error _ => st

def applyOps (st : CreditState) (ops : List Op) : CreditState := ops.foldl applyOp st

/-- A fresh account: zero balances, empty ledger. -/
def initState (dailyLimit monthlyLimit : Option Nat) : CreditState :=
  { balance := 0, free_credits := 0, paid_credits := 0, total_earned_free := 0,
    total_purchased := 0, total_spent := 0, spent_today := 0, spent_this_month := 0,
    daily_spend_limit := dailyLimit, monthly_spend_limit := monthlyLimit,
    ledger := [] }

/-- The accounting invariant of spec §3: the aggregate balance equals the sum
of `balance_remaining` over non-depleted, non-expired ledger entries. -/
def Wf (st : CreditState) : Prop := st.balance = ledgerSum st.ledger

instance (st : CreditState) : Decidable (Wf st) := instDecidableEqNat _ _

/-- A user's daily-bonus state: the credit account, that user's rows of the
`daily_bonuses` table (their `bonus_date` values, as day numbers), and the
streak columns of the `credits` row. -/
structure BonusState where
  credit : CreditState
  claimed_dates : List Nat
  daily_streak : Nat
  longest_streak : Nat
  last_daily_bonus_day : Option Nat
deriving Repr, DecidableEq

inductive BonusError
  | alreadyClaimed
  | grantRejected
deriving Repr, DecidableEq

/-- Modelled from the spec: the streak rule of `GrantDailyBonus` (§4.1) —
increments when the previous claim was exactly one day before, else resets
to 1. -/
def nextStreak (st : BonusState) (day : Nat) : Nat :=
  match st.last_daily_bonus_day with
  | some d => if d + 1 = day then st.daily_streak + 1 else 1
  | none => 1

/-- Modelled from the spec: `GrantDailyBonus(user)` (§4.1); the operation is
absent from the source.  Idempotent per calendar day per user: a claim whose
date is already present among that user's `daily_bonuses` rows is rejected,
which models the uniqueness constraint `uq_daily_bonus` on
`(user_id, bonus_date)` (models/credit.py).  Otherwise `Grant` is called with
amount `base * streak` and a fixed validity window of `validityDays`. -/
def grantDailyBonus (base validityDays : Nat) (st : BonusState) (day : Nat) :
    Except BonusError BonusState :=
  if st.claimed_dates.contains day then .error .alreadyClaimed
  else
    match grant st.credit (base * nextStreak st day) (some (day + validityDays)) with
    | .error _ => .error .grantRejected
    | .ok c2 =>
      .ok { credit := c2, claimed_dates := day :: st.claimed_dates,
            daily_streak := nextStreak st day,
            longest_streak := max st.longest_streak (nextStreak st day),
            last_daily_bonus_day := some day }

end CreditSpec

namespace Privacy

theorem contains_eq_true_iff {l : List String} {k : String} :
    l.contains k = true ↔ k ∈ l := by
  simp [List.contains, List.elem_iff]

theorem contains_eq_false_iff {l : List String} {k : String} :
    l.contains k = false ↔ k ∉ l := by
  rw [← Bool.not_eq_true, not_iff_not, contains_eq_true_iff]

/-- Claim C5: when the viewer is the target, the filter returns exactly the
fields of the record that are not in the always-private deny-list, with their
values unchanged. -/
theorem c5_self_view_is_record_minus_denylist {α : Type} (viewer : Option User)
    (target : User) (data : List (String × α)) (v : User)
    (hv : viewer = some v) (hid : v.id = target.id) :
    ∀ k x, (k, x) ∈ get_visible_fields viewer target data ↔
      ((k, x) ∈ data ∧ k ∉ ALWAYS_PRIVATE_FIELDS) := by
  intro k x
  have hself : isSelf viewer target = true := by
    simp [isSelf, hv, hid]
  simp [get_visible_fields, hself, List.mem_filter, and_comm]

/-- Witness for C5 at a concrete input and field. -/
theorem c5_self_view_is_record_minus_denylist_witness :
    ("bio", 3) ∈ get_visible_fields (α := Nat) (some ⟨7, none⟩) ⟨7, none⟩
        [("id", 1), ("hashed_password", 2), ("bio", 3)] ↔
      (("bio", 3) ∈ [("id", 1), ("hashed_password", 2), ("bio", 3)] ∧
        "bio" ∉ ALWAYS_PRIVATE_FIELDS) :=
  c5_self_view_is_record_minus_denylist (some ⟨7, none⟩) ⟨7, none⟩ _ ⟨7, none⟩
    rfl rfl "bio" 3

/-- Claim C6: for a viewer that is not the target, a locked profile exposes
exactly the fields of the record that are in the always-public allow-list. -/
theorem c6_locked_profile_is_allowlist {α : Type} (viewer : Option User)
    (target : User) (data : List (String × α)) (ps : UserPrivacySettings)
    (hns : isSelf viewer target = false)
    (hps : target.privacy_settings = some ps)
    (hlock : ps.profile_visibility = "locked") :
    ∀ k x, (k, x) ∈ get_visible_fields viewer target data ↔
      ((k, x) ∈ data ∧ k ∈ ALWAYS_PUBLIC_FIELDS) := by
  intro k x
  simp [get_visible_fields, hns, hps, hlock, List.mem_filter]

/-- Witness for C6 at a concrete input and field. -/
theorem c6_locked_profile_is_allowlist_witness :
    ("email", 2) ∈ get_visible_fields (α := Nat) (some ⟨8, none⟩)
        ⟨7, some ⟨"locked", [("email", true)], true⟩⟩
        [("id", 1), ("email", 2), ("bio", 3)] ↔
      (("email", 2) ∈ [("id", 1), ("email", 2), ("bio", 3)] ∧
        "email" ∈ ALWAYS_PUBLIC_FIELDS) :=
  c6_locked_profile_is_allowlist (some ⟨8, none⟩)
    ⟨7, some ⟨"locked", [("email", true)], true⟩⟩ _
    ⟨"locked", [("email", true)], true⟩ (by decide) rfl rfl "email" 2

/-- Claim C7: for a non-owner viewer of a non-locked profile with settings, a
field is included iff it is always-public, or it is not always-private and the
per-field visibility map marks it visible, falling back to the default
visibility flag when the map has no entry; always-private fields stay excluded
even if the stored map marks them visible. -/
theorem c7_field_visibility_projection {α : Type} (viewer : Option User)
    (target : User) (data : List (String × α)) (ps : UserPrivacySettings)
    (hns : isSelf viewer target = false)
    (hps : target.privacy_settings = some ps)
    (hlock : ps.profile_visibility ≠ "locked") :
    ∀ k x, (k, x) ∈ get_visible_fields viewer target data ↔
      ((k, x) ∈ data ∧
        (k ∈ ALWAYS_PUBLIC_FIELDS ∨
          (k ∉ ALWAYS_PRIVATE_FIELDS ∧
            (ps.field_visibility.lookup k).getD ps.default_field_visibility = true))) := by
  intro k x
  have hpub : k ∈ ALWAYS_PUBLIC_FIELDS → k ∉ ALWAYS_PRIVATE_FIELDS := by
    intro hk
    fin_cases hk <;> decide
  simp only [get_visible_fields, hns, Bool.false_eq_true, if_false, hps,
    beq_iff_eq, hlock, if_false, List.mem_filter, Bool.and_eq_true,
    Bool.not_eq_true', Bool.or_eq_true, contains_eq_true_iff,
    contains_eq_false_iff]
  constructor
  · rintro ⟨hm, hnp, hpu | hvis⟩
    · exact ⟨hm, Or.inl hpu⟩
    · exact ⟨hm, Or.inr ⟨hnp, hvis⟩⟩
  · rintro ⟨hm, hpu | ⟨hnp, hvis⟩⟩
    · exact ⟨hm, hpub hpu, Or.inl hpu⟩
    · exact ⟨hm, hnp, Or.inr hvis⟩

/-- Witness for C7 at a concrete input and field. -/
theorem c7_field_visibility_projection_witness :
    ("email", 2) ∈ get_visible_fields (α := Nat) none
        ⟨7, some ⟨"public", [("email", true), ("bio", false)], true⟩⟩
        [("id", 1), ("email", 2), ("bio", 3), ("city", 4), ("hashed_password", 5)] ↔
      (("email", 2) ∈
          [("id", 1), ("email", 2), ("bio", 3), ("city", 4), ("hashed_password", 5)] ∧
        ("email" ∈ ALWAYS_PUBLIC_FIELDS ∨
          ("email" ∉ ALWAYS_PRIVATE_FIELDS ∧
            ((([("email", true), ("bio", false)] :
                List (String × Bool)).lookup "email").getD true = true)))) :=
  c7_field_visibility_projection none
    ⟨7, some ⟨"public", [("email", true), ("bio", false)], true⟩⟩ _
    ⟨"public", [("email", true), ("bio", false)], true⟩ rfl rfl (by decide)
    "email" 2

/-- Claim C10: on every path, the privacy filter's output is a sub-map of its
input — each returned pair occurs in the input record — and no always-private
field ever appears in the output. -/
theorem c10_output_submap_and_no_private {α : Type} (viewer : Option User)
    (target : User) (data : List (String × α)) :
    ∀ kv ∈ get_visible_fields viewer target data,
      kv ∈ data ∧ kv.1 ∉ ALWAYS_PRIVATE_FIELDS := by
  intro kv hkv
  have hpub : ∀ k : String, k ∈ ALWAYS_PUBLIC_FIELDS → k ∉ ALWAYS_PRIVATE_FIELDS := by
    intro k hk
    fin_cases hk <;> decide
  unfold get_visible_fields at hkv
  split at hkv
  · rw [List.mem_filter] at hkv
    refine ⟨hkv.1, ?_⟩
    have := hkv.2
    rw [Bool.not_eq_true', contains_eq_false_iff] at this
    exact this
  · rename_i hsettings
    split at hkv
    · rw [applyDefaultPrivacy, List.mem_filter] at hkv
      refine ⟨hkv.1, ?_⟩
      have := hkv.2
      simp only [Bool.and_eq_true, Bool.not_eq_true', contains_eq_false_iff] at this
      exact this.1
    · rename_i ps heq
      split at hkv
      · rw [List.mem_filter] at hkv
        refine ⟨hkv.1, ?_⟩
        apply hpub
        rw [← contains_eq_true_iff]
        exact hkv.2
      · rw [List.mem_filter] at hkv
        refine ⟨hkv.1, ?_⟩
        have := hkv.2
        simp only [Bool.and_eq_true, Bool.not_eq_true', contains_eq_false_iff] at this
        exact this.1

/-- Witness for C10 at a concrete input and returned pair. -/
theorem c10_output_submap_and_no_private_witness :
    ("bio", 3) ∈ [("id", 1), ("hashed_password", 2), ("bio", 3)] ∧
    "bio" ∉ ALWAYS_PRIVATE_FIELDS :=
  c10_output_submap_and_no_private (α := Nat) (some ⟨7, none⟩) ⟨7, none⟩
    [("id", 1), ("hashed_password", 2), ("bio", 3)] ("bio", 3) (by decide)

end Privacy

namespace AuthApi

/-- Claim C8: registration with an email, phone number or username that
already belongs to an existing user fails with an HTTP 400 validation error,
and the users table is left unchanged. -/
theorem c8_duplicate_registration_rejected (hashPw : String → String)
    (db : List DbUser) (freshId : Nat) (data : StudentRegister)
    (hdup :
      (∃ e, data.email = some e ∧ e.isEmpty = false ∧
        ∃ u ∈ db, u.email = some e) ∨
      (∃ p, data.phone_number = some p ∧ p.isEmpty = false ∧
        ∃ u ∈ db, u.phone_number = some p) ∨
      (∃ n, data.username = some n ∧ n.isEmpty = false ∧
        ∃ u ∈ db, u.username = some n)) :
    (∃ d, register_student hashPw db freshId data = .error ⟨400, d⟩) ∧
    applyRegister hashPw db freshId data = db := by
  have hcond : ∀ (f : DbUser → Option String) (x : Option String),
      (∃ s, x = some s ∧ s.isEmpty = false ∧ ∃ u ∈ db, f u = some s) →
      (truthy x && (db.find? fun u => f u == x).isSome) = true := by
    rintro f x ⟨s, hx, hs, u, hu, hf⟩
    subst hx
    apply Bool.and_eq_true_iff.mpr
    constructor
    · simpa [truthy] using hs
    · exact List.find?_isSome.mpr ⟨u, hu, by simp [hf]⟩
  have hgoal : ∃ d, register_student hashPw db freshId data = .error ⟨400, d⟩ := by
    rcases hdup with he | hp | hn
    · exact ⟨"Email already registered", by
        simp only [register_student, hcond (fun u => u.email) data.email he, if_true]⟩
    · by_cases hc1 : (truthy data.email &&
        (db.find? fun u => u.email == data.email).isSome) = true
      · exact ⟨"Email already registered", by simp only [register_student, hc1, if_true]⟩
      · exact ⟨"Phone number already registered", by
          simp only [register_student, hc1,
            hcond (fun u => u.phone_number) data.phone_number hp, if_true, if_false,
            Bool.false_eq_true]⟩
    · by_cases hc1 : (truthy data.email &&
        (db.find? fun u => u.email == data.email).isSome) = true
      · exact ⟨"Email already registered", by simp only [register_student, hc1, if_true]⟩
      · by_cases hc2 : (truthy data.phone_number &&
          (db.find? fun u => u.phone_number == data.phone_number).isSome) = true
        · exact ⟨"Phone number already registered", by
            simp only [register_student, hc1, hc2, if_true, if_false, Bool.false_eq_true]⟩
        · exact ⟨"Username already taken", by
            simp only [register_student, hc1, hc2,
              hcond (fun u => u.username) data.username hn, if_true, if_false,
              Bool.false_eq_true]⟩
  refine ⟨hgoal, ?_⟩
  obtain ⟨d, hd⟩ := hgoal
  simp [applyRegister, hd]

/-- Witness for C8: a db already holding the email being registered. -/
theorem c8_duplicate_registration_rejected_witness :
    (∃ d, register_student (fun s => s)
        [{ id := 1, user_type := "student", email := some "a@b.c",
           phone_number := none, username := some "ann",
           hashed_password := some "x", is_active := true, is_verified := false,
           is_suspended := false, suspension_reason := none,
           two_factor_enabled := false }] 2
        ⟨some "a@b.c", none, some "bob", "pw"⟩ = .error ⟨400, d⟩) ∧
    applyRegister (fun s => s)
        [{ id := 1, user_type := "student", email := some "a@b.c",
           phone_number := none, username := some "ann",
           hashed_password := some "x", is_active := true, is_verified := false,
           is_suspended := false, suspension_reason := none,
           two_factor_enabled := false }] 2
        ⟨some "a@b.c", none, some "bob", "pw"⟩ =
      [{ id := 1, user_type := "student", email := some "a@b.c",
         phone_number := none, username := some "ann",
         hashed_password := some "x", is_active := true, is_verified := false,
         is_suspended := false, suspension_reason := none,
         two_factor_enabled := false }] :=
  c8_duplicate_registration_rejected (fun s => s) _ 2 _
    (Or.inl ⟨"a@b.c", rfl, rfl, _, List.mem_singleton.mpr rfl, rfl⟩)

/-- Claim C9: logging in with a correct password on an inactive or suspended
account fails with an HTTP 403 permission error, so no access or refresh
token is issued. -/
theorem c9_inactive_or_suspended_login_forbidden
    (verify : String → Option String → Bool)
    (makeAccess : Nat → String → String) (makeRefresh : Nat → String)
    (expireMinutes : Nat) (db : List DbUser) (data : UserLogin) (u : DbUser)
    (hfind : findUserByIdentifier db data.identifier = some u)
    (hpw : verify data.password u.hashed_password = true)
    (hbad : u.is_active = false ∨ u.is_suspended = true) :
    ∃ d, login verify makeAccess makeRefresh expireMinutes db data =
      .error ⟨403, d⟩ := by
  rcases hbad with hia | hsus
  · exact ⟨"User account is inactive", by
      simp only [login, hfind, hpw, hia, Bool.not_false, Bool.not_true,
        Bool.false_eq_true, if_false, if_true]⟩
  · by_cases hia : u.is_active = true
    · exact ⟨"Account suspended: " ++ (u.suspension_reason.getD "Contact support"), by
        simp only [login, hfind, hpw, hia, hsus, Bool.not_true, Bool.false_eq_true,
          if_false, if_true]⟩
    · have hia2 : u.is_active = false := by simpa using hia
      exact ⟨"User account is inactive", by
        simp only [login, hfind, hpw, hia2, Bool.not_false, Bool.not_true,
          Bool.false_eq_true, if_false, if_true]⟩

/-- Witness for C9: an inactive user logging in by username with the
correct password. -/
theorem c9_inactive_or_suspended_login_forbidden_witness :
    ∃ d, login (fun p h => h == some ("#" ++ p)) (fun _ t => t) (fun _ => "r") 30
        [{ id := 1, user_type := "student", email := none,
           phone_number := none, username := some "bob",
           hashed_password := some "#pw", is_active := false, is_verified := true,
           is_suspended := false, suspension_reason := none,
           two_factor_enabled := false }]
        ⟨"bob", "pw", false⟩ = .error ⟨403, d⟩ :=
  c9_inactive_or_suspended_login_forbidden (fun p h => h == some ("#" ++ p))
    (fun _ t => t) (fun _ => "r") 30
    [{ id := 1, user_type := "student", email := none,
       phone_number := none, username := some "bob",
       hashed_password := some "#pw", is_active := false, is_verified := true,
       is_suspended := false, suspension_reason := none,
       two_factor_enabled := false }]
    ⟨"bob", "pw", false⟩
    { id := 1, user_type := "student", email := none,
      phone_number := none, username := some "bob",
      hashed_password := some "#pw", is_active := false, is_verified := true,
      is_suspended := false, suspension_reason := none,
      two_factor_enabled := false }
    (by decide) (by decide) (Or.inl rfl)

end AuthApi

namespace CreditSpec

theorem ledgerSum_nil : ledgerSum [] = 0 := rfl

theorem ledgerSum_cons (e : LedgerEntry) (l : List LedgerEntry) :
    ledgerSum (e :: l) =
      (if eligible e = true then e.balance_remaining else 0) + ledgerSum l := by
  by_cases h : eligible e = true <;> simp [ledgerSum, List.filter_cons, h]

theorem ledgerSum_append (l l2 : List LedgerEntry) :
    ledgerSum (l ++ l2) = ledgerSum l + ledgerSum l2 := by
  simp [ledgerSum]

theorem usedSum_nil : usedSum [] = 0 := rfl

theorem usedSum_cons (u : UsageRecord) (us : List UsageRecord) :
    usedSum (u :: us) = u.amount_used + usedSum us := by
  simp [usedSum]

theorem ledgerSum_perm {l l2 : List LedgerEntry} (h : l.Perm l2) :
    ledgerSum l = ledgerSum l2 :=
  List.Perm.sum_eq ((h.filter eligible).map LedgerEntry.balance_remaining)

/-- Drawing conserves credit: the eligible sum before equals the eligible sum
after plus the total drawn. -/
theorem drawSeq_sum (amt : Nat) (l : List LedgerEntry) :
    ledgerSum l = ledgerSum (drawSeq amt l).1 + usedSum (drawSeq amt l).2 := by
  induction l generalizing amt with
  | nil => simp [drawSeq, usedSum, ledgerSum]
  | cons e es ih =>
    by_cases h0 : amt = 0
    · simp [drawSeq, h0, usedSum]
    · by_cases hel : eligible e = true
      · have hexp : e.is_expired = false := by
          revert hel
          unfold eligible
          cases e.is_depleted <;> cases e.is_expired <;> simp
        have htake : min amt e.balance_remaining ≤ e.balance_remaining :=
          Nat.min_le_right _ _
        have ihr := ih (amt - min amt e.balance_remaining)
        simp only [drawSeq, if_neg h0, if_pos hel]
        rw [ledgerSum_cons, ledgerSum_cons, usedSum_cons, if_pos hel]
        by_cases hz : e.balance_remaining - min amt e.balance_remaining = 0
        · simp [eligible, hz, hexp]
          omega
        · simp [eligible, hz, hexp]
          omega
      · have ihr := ih amt
        simp only [drawSeq, if_neg h0, if_neg hel]
        rw [ledgerSum_cons, ledgerSum_cons, if_neg hel]
        omega

/-- The total drawn never exceeds the requested amount. -/
theorem drawSeq_used_le (amt : Nat) (l : List LedgerEntry) :
    usedSum (drawSeq amt l).2 ≤ amt := by
  induction l generalizing amt with
  | nil => simp [drawSeq, usedSum]
  | cons e es ih =>
    by_cases h0 : amt = 0
    · simp [drawSeq, h0, usedSum]
    · by_cases hel : eligible e = true
      · have ihr := ih (amt - min amt e.balance_remaining)
        simp only [drawSeq, if_neg h0, if_pos hel, usedSum_cons]
        omega
      · have ihr := ih amt
        simp only [drawSeq, if_neg h0, if_neg hel]
        exact ihr

/-- When the eligible sum covers the requested amount, the per-entry draws sum
to exactly that amount. -/
theorem drawSeq_used_eq (amt : Nat) (l : List LedgerEntry)
    (h : amt ≤ ledgerSum l) : usedSum (drawSeq amt l).2 = amt := by
  induction l generalizing amt with
  | nil =>
    rw [ledgerSum_nil] at h
    simp [drawSeq, usedSum]
    omega
  | cons e es ih =>
    by_cases h0 : amt = 0
    · simp [drawSeq, h0, usedSum]
    · by_cases hel : eligible e = true
      · rw [ledgerSum_cons, if_pos hel] at h
        have ihr := ih (amt - min amt e.balance_remaining) (by omega)
        simp only [drawSeq, if_neg h0, if_pos hel, usedSum_cons]
        omega
      · rw [ledgerSum_cons, if_neg hel] at h
        simp only [drawSeq, if_neg h0, if_neg hel]
        exact ih amt (by omega)

/-- The expiry keys of the usage records form a subsequence of the expiry keys
of the entry list walked, in order. -/
theorem drawSeq_keys_sublist (amt : Nat) (l : List LedgerEntry) :
    List.Sublist ((drawSeq amt l).2.map UsageRecord.entry_expires_at)
      (l.map LedgerEntry.expires_at) := by
  induction l generalizing amt with
  | nil => simp [drawSeq]
  | cons e es ih =>
    by_cases h0 : amt = 0
    · simp [drawSeq, h0]
    · by_cases hel : eligible e = true
      · simp only [drawSeq, if_neg h0, if_pos hel, List.map_cons]
        exact List.Sublist.cons₂ _ (ih _)
      · simp only [drawSeq, if_neg h0, if_neg hel, List.map_cons]
        exact List.Sublist.cons _ (ih _)

end CreditSpec

namespace CreditSpec

/-- Inversion of a successful `consume`: the balance check passed, and the
returned usage list and state come from the draw over the sorted ledger. -/
theorem consume_ok_inv {st : CreditState} {amt : Nat} {st2 : CreditState}
    {us : List UsageRecord} (h : consume st amt = .ok (st2, us)) :
    ¬ st.balance < amt ∧
    us = (drawSeq amt (List.insertionSort entryRel st.ledger)).2 ∧
    st2.balance = st.balance - amt ∧
    st2.ledger = (drawSeq amt (List.insertionSort entryRel st.ledger)).1 := by
  by_cases h1 : st.balance < amt
  · rw [consume, if_pos h1] at h
    exact absurd h (by simp)
  · by_cases h2 : limitHit st amt = true
    · rw [consume, if_neg h1, if_pos h2] at h
      exact absurd h (by simp)
    · rw [consume, if_neg h1, if_neg h2] at h
      simp only [Except.ok.injEq, Prod.mk.injEq] at h
      obtain ⟨hst, hus⟩ := h
      subst hst
      exact ⟨h1, hus.symm, rfl, rfl⟩

theorem wf_grant {st : CreditState} {a : Nat} {ex : Option Nat}
    {st2 : CreditState} (hwf : Wf st) (h : grant st a ex = .ok st2) : Wf st2 := by
  by_cases h0 : a = 0
  · rw [grant, if_pos h0] at h
    exact absurd h (by simp)
  · rw [grant, if_neg h0] at h
    simp only [Except.ok.injEq] at h
    subst h
    unfold Wf at hwf ⊢
    have hone : ledgerSum
        [{ amount := a, balance_remaining := a, is_depleted := false,
           expires_at := ex, is_expired := false, expired_amount := 0 }] = a := by
      simp [ledgerSum, eligible]
    simp only [ledgerSum_append, hone]
    omega

theorem wf_consume {st : CreditState} {amt : Nat} {st2 : CreditState}
    {us : List UsageRecord} (hwf : Wf st) (h : consume st amt = .ok (st2, us)) :
    Wf st2 := by
  obtain ⟨hnb, hus, hbal, hled⟩ := consume_ok_inv h
  have hperm : ledgerSum (List.insertionSort entryRel st.ledger) =
      ledgerSum st.ledger :=
    ledgerSum_perm (List.perm_insertionSort entryRel st.ledger)
  have hds := drawSeq_sum amt (List.insertionSort entryRel st.ledger)
  unfold Wf at hwf
  have hue := drawSeq_used_eq amt (List.insertionSort entryRel st.ledger)
    (by omega)
  unfold Wf
  rw [hbal, hled]
  omega

theorem wf_applyOp {st : CreditState} (hwf : Wf st) (op : Op) :
    Wf (applyOp st op) := by
  cases op with
  | grantOp a e =>
    simp only [applyOp]
    cases hg : grant st a e with
    | ok st2 => exact wf_grant hwf hg
    | error err => exact hwf
  | consumeOp a =>
    simp only [applyOp]
    cases hc : consume st a with
    | ok p =>
      obtain ⟨st2, us⟩ := p
      exact wf_consume hwf hc
    | error err => exact hwf

theorem wf_applyOps (st : CreditState) (hwf : Wf st) (ops : List Op) :
    Wf (applyOps st ops) := by
  induction ops generalizing st with
  | nil => exact hwf
  | cons op ops ih =>
    rw [applyOps, List.foldl_cons]
    exact ih _ (wf_applyOp hwf op)

/-- Claim C1: after every sequence of Grant and Consume operations on a fresh
account, the aggregate balance equals the sum of `balance_remaining` over the
ledger entries that are neither depleted nor expired. -/
theorem c1_balance_matches_ledger (dailyLimit monthlyLimit : Option Nat)
    (ops : List Op) :
    (applyOps (initState dailyLimit monthlyLimit) ops).balance =
      ledgerSum (applyOps (initState dailyLimit monthlyLimit) ops).ledger :=
  wf_applyOps (initState dailyLimit monthlyLimit) rfl ops

/-- Claim C4: a Consume larger than the current balance fails with the
insufficient-funds error and leaves the account and every ledger entry
unchanged. -/
theorem c4_insufficient_funds_rejected (st : CreditState) (amt : Nat)
    (h : st.balance < amt) :
    consume st amt = .error .insufficientFunds ∧
    applyOp st (.consumeOp amt) = st := by
  have hc : consume st amt = .error .insufficientFunds := by
    rw [consume, if_pos h]
  refine ⟨hc, ?_⟩
  simp only [applyOp, hc]

/-- Witness for C4: consuming 5 from a balance of 3. -/
theorem c4_insufficient_funds_rejected_witness :
    consume { balance := 3, free_credits := 3, paid_credits := 0,
              total_earned_free := 3, total_purchased := 0, total_spent := 0,
              spent_today := 0, spent_this_month := 0, daily_spend_limit := none,
              monthly_spend_limit := none,
              ledger := [{ amount := 3, balance_remaining := 3,
                           is_depleted := false, expires_at := some 9,
                           is_expired := false, expired_amount := 0 }] } 5 =
        .error .insufficientFunds ∧
    applyOp { balance := 3, free_credits := 3, paid_credits := 0,
              total_earned_free := 3, total_purchased := 0, total_spent := 0,
              spent_today := 0, spent_this_month := 0, daily_spend_limit := none,
              monthly_spend_limit := none,
              ledger := [{ amount := 3, balance_remaining := 3,
                           is_depleted := false, expires_at := some 9,
                           is_expired := false, expired_amount := 0 }] }
        (.consumeOp 5) =
      { balance := 3, free_credits := 3, paid_credits := 0,
        total_earned_free := 3, total_purchased := 0, total_spent := 0,
        spent_today := 0, spent_this_month := 0, daily_spend_limit := none,
        monthly_spend_limit := none,
        ledger := [{ amount := 3, balance_remaining := 3,
                     is_depleted := false, expires_at := some 9,
                     is_expired := false, expired_amount := 0 }] } :=
  c4_insufficient_funds_rejected _ 5 (by decide)

/-- Claim C2: a successful multi-entry Consume draws entries in ascending
`expires_at` order with non-expiring (NULL) entries last, and the per-entry
draws sum to the requested amount. -/
theorem c2_consume_fifo_by_expiry (st : CreditState) (amt : Nat)
    (st2 : CreditState) (us : List UsageRecord) (hwf : Wf st)
    (h : consume st amt = .ok (st2, us)) (hspan : 2 ≤ us.length) :
    List.Pairwise (fun a b => keyLE a b = true)
      (us.map UsageRecord.entry_expires_at) ∧
    usedSum us = amt := by
  obtain ⟨hnb, hus, -, -⟩ := consume_ok_inv h
  subst hus
  refine ⟨?_, ?_⟩
  · have hsorted : List.Sorted entryRel (List.insertionSort entryRel st.ledger) :=
      List.sorted_insertionSort entryRel st.ledger
    have hkeys : List.Pairwise (fun a b => keyLE a b = true)
        ((List.insertionSort entryRel st.ledger).map LedgerEntry.expires_at) := by
      rw [List.pairwise_map]
      exact hsorted
    exact List.Pairwise.sublist (drawSeq_keys_sublist amt _) hkeys
  · apply drawSeq_used_eq
    have hp := ledgerSum_perm (List.perm_insertionSort entryRel st.ledger)
    unfold Wf at hwf
    omega

/-- Witness for C2: the spec §8 example — 10 expiring and 5 non-expiring
credits, consuming 12 draws 10 from the expiring entry then 2 from the
non-expiring one. -/
theorem c2_consume_fifo_by_expiry_witness :
    List.Pairwise (fun a b => keyLE a b = true)
      (([{ amount_used := 10, entry_expires_at := some 5 },
         { amount_used := 2, entry_expires_at := none }] :
        List UsageRecord).map UsageRecord.entry_expires_at) ∧
    usedSum [{ amount_used := 10, entry_expires_at := some 5 },
             { amount_used := 2, entry_expires_at := none }] = 12 :=
  c2_consume_fifo_by_expiry
    { balance := 15, free_credits := 10, paid_credits := 5,
      total_earned_free := 10, total_purchased := 5, total_spent := 0,
      spent_today := 0, spent_this_month := 0, daily_spend_limit := none,
      monthly_spend_limit := none,
      ledger := [{ amount := 5, balance_remaining := 5, is_depleted := false,
                   expires_at := none, is_expired := false, expired_amount := 0 },
                 { amount := 10, balance_remaining := 10, is_depleted := false,
                   expires_at := some 5, is_expired := false,
                   expired_amount := 0 }] }
    12
    { balance := 3, free_credits := 0, paid_credits := 3,
      total_earned_free := 10, total_purchased := 5, total_spent := 12,
      spent_today := 12, spent_this_month := 12, daily_spend_limit := none,
      monthly_spend_limit := none,
      ledger := [{ amount := 10, balance_remaining := 0, is_depleted := true,
                   expires_at := some 5, is_expired := false,
                   expired_amount := 0 },
                 { amount := 5, balance_remaining := 3, is_depleted := false,
                   expires_at := none, is_expired := false,
                   expired_amount := 0 }] }
    [{ amount_used := 10, entry_expires_at := some 5 },
     { amount_used := 2, entry_expires_at := none }]
    (by decide) rfl (by decide)

/-- Claim C3: a daily bonus can be claimed at most once per calendar date —
after a successful claim for a date, a second claim for the same date is
rejected by the per-user uniqueness of `(user_id, bonus_date)`. -/
theorem c3_daily_bonus_once_per_date (base validityDays : Nat)
    (st st2 : BonusState) (day : Nat)
    (h : grantDailyBonus base validityDays st day = .ok st2) :
    grantDailyBonus base validityDays st2 day = .error .alreadyClaimed := by
  by_cases hc : st.claimed_dates.contains day = true
  · rw [grantDailyBonus, if_pos hc] at h
    exact absurd h (by simp)
  · rw [grantDailyBonus, if_neg hc] at h
    cases hg : grant st.credit (base * nextStreak st day)
        (some (day + validityDays)) with
    | error err =>
      rw [hg] at h
      exact absurd h (by simp)
    | ok c2 =>
      rw [hg] at h
      simp only [Except.ok.injEq] at h
      subst h
      simp [grantDailyBonus]

/-- Witness for C3: first claim of day 100 on a fresh account succeeds; the
theorem then rejects the repeat claim. -/
theorem c3_daily_bonus_once_per_date_witness :
    grantDailyBonus 10 30
      { credit := { balance := 10, free_credits := 10, paid_credits := 0,
                    total_earned_free := 10, total_purchased := 0,
                    total_spent := 0, spent_today := 0, spent_this_month := 0,
                    daily_spend_limit := none, monthly_spend_limit := none,
                    ledger := [{ amount := 10, balance_remaining := 10,
                                 is_depleted := false, expires_at := some 130,
                                 is_expired := false, expired_amount := 0 }] },
        claimed_dates := [100], daily_streak := 1, longest_streak := 1,
        last_daily_bonus_day := some 100 } 100 = .error .alreadyClaimed :=
  c3_daily_bonus_once_per_date 10 30
    { credit := initState none none, claimed_dates := [], daily_streak := 0,
      longest_streak := 0, last_daily_bonus_day := none }
    { credit := { balance := 10, free_credits := 10, paid_credits := 0,
                  total_earned_free := 10, total_purchased := 0,
                  total_spent := 0, spent_today := 0, spent_this_month := 0,
                  daily_spend_limit := none, monthly_spend_limit := none,
                  ledger := [{ amount := 10, balance_remaining := 10,
                               is_depleted := false, expires_at := some 130,
                               is_expired := false, expired_amount := 0 }] },
      claimed_dates := [100], daily_streak := 1, longest_streak := 1,
      last_daily_bonus_day := some 100 } 100 rfl

end CreditSpec
